import Mathlib

/-!
Verification of the quiz generation and scoring pipeline of the
LLM-Integrated MCQ Quiz Game (files `mcq_generator.py` and `app.py`).

The external pieces (the Gemini chain invocation and Python's `json.loads`)
are modelled as oracles: the chain is a stream of responses consumed one per
call, and `json.loads` is an arbitrary function `String → Option Json`
(`none` standing for a raised `JSONDecodeError`).  Everything downstream of
those oracles is translated directly from the Python source.  Python
exceptions (`KeyError`, `ValueError`, `TypeError`, `AttributeError`) that the
source lets escape are modelled with `Except PyErr`.

Python string primitives (`strip`, `replace`, `lower`, `int(...)`) are given
executable character-list implementations so that every definition evaluates
inside the kernel.
-/

namespace MCQGame

/-- JSON values, as produced by `json.loads`.  An `obj` represents a Python
dict: keys are unique and the list order is the dict's insertion order.
(Numeric payloads are restricted to integers; no claim involves JSON
floating point numbers.) -/
inductive Json where
  | null : Json
  | bool : Bool → Json
  | num : Int → Json
  | str : String → Json
  | arr : List Json → Json
  | obj : List (String × Json) → Json

/-- Python exceptions that the translated code can raise. -/
inductive PyErr where
  | keyError : String → PyErr
  | typeError : String → PyErr
  | valueError : String → PyErr
  | attributeError : String → PyErr

/-- Python `s.strip()`: drop leading and trailing whitespace. -/
def pyStrip (s : String) : String :=
  String.mk (((s.data.dropWhile Char.isWhitespace).reverse.dropWhile Char.isWhitespace).reverse)

/-- Python `s.lower()` (the program only lowercases ASCII option labels). -/
def pyLower (s : String) : String :=
  String.mk (s.data.map Char.toLower)

/-- If `p` is a prefix of the second list, return the remaining suffix. -/
def stripPrefixChars : List Char → List Char → Option (List Char)
  | [], l => some l
  | _ :: _, [] => none
  | p :: ps, c :: cs => if p = c then stripPrefixChars ps cs else none

/-- Fuel-driven worker for `pyReplace`: replace every (leftmost,
non-overlapping) occurrence of `pat` by `rep`. -/
def replaceFuel (pat rep : List Char) : Nat → List Char → List Char
  | 0, l => l
  | _ + 1, [] => []
  | fuel + 1, c :: rest =>
      match stripPrefixChars pat (c :: rest) with
      | some suffix => rep ++ replaceFuel pat rep fuel suffix
      | none => c :: replaceFuel pat rep fuel rest

/-- Python `s.replace(pat, rep)` for a non-empty pattern. -/
def pyReplace (s pat rep : String) : String :=
  String.mk (replaceFuel pat.data rep.data (s.data.length + 1) s.data)

/-- Digit run to number, `'0'`..`'9'` mapping to 0..9. -/
def digitsToNat (l : List Char) : Nat :=
  l.foldl (fun acc c => acc * 10 + (c.toNat - 48)) 0

/-- Python `int(s)` on a string (for the plain decimal literals, optionally
signed and surrounded by whitespace, that this program's dict keys use);
`none` models a raised `ValueError`. -/
def pyToInt (s : String) : Option Int :=
  match (pyStrip s).data with
  | [] => none
  | '-' :: rest =>
      if rest.isEmpty = false && rest.all (fun c => c.isDigit) then
        some (-(digitsToNat rest : Int))
      else none
  | '+' :: rest =>
      if rest.isEmpty = false && rest.all (fun c => c.isDigit) then
        some ((digitsToNat rest : Int))
      else none
  | l =>
      if l.all (fun c => c.isDigit) then some ((digitsToNat l : Int)) else none

/-- First-match lookup in an association list (Python dict subscript over the
unique keys of a dict). -/
def lookupStr : List (String × Json) → String → Option Json
  | [], _ => none
  | (k, v) :: rest, key => if k = key then some v else lookupStr rest key

/-- Python `d[key]`: dict lookup raising `KeyError` when the key is absent and
`TypeError` when the value is not a dict. -/
def pySubscript (j : Json) (key : String) : Except PyErr Json :=
  match j with
  | Json.obj entries =>
      match lookupStr entries key with
      | some v => Except.ok v
      | none => Except.error (PyErr.keyError key)
  | _ => Except.error (PyErr.typeError key)

/-- Python `d.keys()` (with the subsequent per-key subscripts): the entries of
a dict, raising `AttributeError` on a non-dict. -/
def pyDictEntries : Json → Except PyErr (List (String × Json))
  | Json.obj entries => Except.ok entries
  | _ => Except.error (PyErr.attributeError "keys")

/-- Python `x.lower()` applied to a JSON value: lowercases a string and raises
`AttributeError` otherwise. -/
def pyStrLower : Json → Except PyErr String
  | Json.str s => Except.ok (pyLower s)
  | _ => Except.error (PyErr.attributeError "lower")

/-- Whether a JSON value is a string. -/
def Json.isStr : Json → Bool
  | Json.str _ => true
  | _ => false

/-- `clean_json_response` from `mcq_generator.py`: drop markdown fence
markers and strip whitespace. -/
def clean_json_response (response_text : String) : String :=
  pyStrip (pyReplace (pyReplace response_text "```json" "") "```" "")

/-- `generate_questions_by_difficulty` from `mcq_generator.py`.  The chain
invocation is an oracle value `svcResp` (`Except.error` = any raised
transport/service exception); `loads` is the `json.loads` oracle (`none` = a
raised `JSONDecodeError`).  Both exception branches of the source return
`None`, here `none`.  `topic`, `number` and `difficulty` only shape the
prompt sent to the service and do not influence the rest of the function. -/
def generate_questions_by_difficulty (loads : String → Option Json)
    (_topic : String) (_number : Nat) (_difficulty : String)
    (svcResp : Except String String) : Option Json :=
  match svcResp with
  | Except.error _ => none
  | Except.ok raw => loads (clean_json_response raw)

/-- One call to `generate_questions_by_difficulty` against a stream of
pending service responses: the call consumes exactly the first response. -/
def genQBD_with_oracle (loads : String → Option Json)
    (topic : String) (number : Nat) (difficulty : String)
    (responses : List (Except String String)) :
    Option Json × List (Except String String) :=
  match responses with
  | [] => (none, [])
  | r :: rest => (generate_questions_by_difficulty loads topic number difficulty r, rest)

/-- The standardized question object built by `generate_quiz` (the
`question_obj` dict).  `question`, `options` and `correct` are copied
verbatim from the parsed service response. -/
structure Question where
  question_number : Nat
  question : Json
  options : Json
  correct : Json
  difficulty : String

/-- Return value of `generate_quiz`: the success/failure dicts of the source
(a failure always carries `questions = []` in the source, kept explicit
here; success carries the message "Quiz generated successfully"). -/
inductive QuizResult where
  | failure (message : String) (questions : List Question)
  | success (message : String) (questions : List Question) (topic : String)

/-- The key-function pass of `sorted(d.keys(), key=lambda x: int(x))`:
attach `int(key)` to each dict entry, raising `ValueError` on a key that
does not parse. -/
def parseTierKeys : List (String × Json) → Except PyErr (List (Int × (String × Json)))
  | [] => Except.ok []
  | kv :: rest =>
      match pyToInt kv.1 with
      | none => Except.error (PyErr.valueError kv.1)
      | some n =>
          match parseTierKeys rest with
          | Except.error e => Except.error e
          | Except.ok tail => Except.ok ((n, kv) :: tail)

/-- Comparison used by `sorted(..., key=lambda x: int(x))`. -/
def tierKeyLE (a b : Int × (String × Json)) : Prop := a.1 ≤ b.1

instance : DecidableRel tierKeyLE :=
  fun a b => inferInstanceAs (Decidable (a.1 ≤ b.1))

instance : IsTotal (Int × (String × Json)) tierKeyLE :=
  ⟨fun a b => Int.le_total a.1 b.1⟩

instance : IsTrans (Int × (String × Json)) tierKeyLE :=
  ⟨fun _ _ _ h1 h2 => le_trans h1 h2⟩

/-- Python's `sorted` on dict keys with `key=int`: a stable sort on the
attached integer keys (insertion sort is stable, like Python's sort). -/
def sortTierEntries (keyed : List (Int × (String × Json))) :
    List (Int × (String × Json)) :=
  List.insertionSort tierKeyLE keyed

/-- The per-key loop body of `generate_quiz`: for each entry (in sorted key
order) read `question_data["question"]`, `["options"]`, `["correct"]` and
append the standardized question object numbered `len(all_questions) + 1`.
A missing field raises `KeyError`, which propagates. -/
def buildQuestions (diff : String) : List (String × Json) → Nat → Except PyErr (List Question)
  | [], _ => Except.ok []
  | (_, qd) :: rest, n =>
      match pySubscript qd "question" with
      | Except.error e => Except.error e
      | Except.ok q =>
          match pySubscript qd "options" with
          | Except.error e => Except.error e
          | Except.ok o =>
              match pySubscript qd "correct" with
              | Except.error e => Except.error e
              | Except.ok c =>
                  match buildQuestions diff rest (n + 1) with
                  | Except.error e => Except.error e
                  | Except.ok tail =>
                      Except.ok
                        ({ question_number := n + 1,
                           question := q,
                           options := o,
                           correct := c,
                           difficulty := diff } :: tail)

/-- One tier's processing inside `generate_quiz`: iterate over the parsed
response dict in ascending `int(key)` order, appending standardized question
objects after the `startLen` questions already collected. -/
def processTier (j : Json) (startLen : Nat) (diff : String) : Except PyErr (List Question) :=
  match pyDictEntries j with
  | Except.error e => Except.error e
  | Except.ok entries =>
      match parseTierKeys entries with
      | Except.error e => Except.error e
      | Except.ok keyed =>
          buildQuestions diff ((sortTierEntries keyed).map Prod.snd) startLen

/-- Consume the next pending tier response (an absent response behaves like a
failed generation). -/
def takeResp : List (Option Json) → Option Json × List (Option Json)
  | [] => (none, [])
  | r :: rest => (r, rest)

/-- `generate_quiz` from `mcq_generator.py`, parameterized by the stream of
per-tier generation outcomes (each element is the corresponding
`generate_questions_by_difficulty` result: `none` = failed generation).  The
second component of the result is the stream of responses never consumed, so
the consumption of the stream records which tier calls were actually made. -/
def generate_quiz (topic : String) (oracle : List (Option Json)) :
    Except PyErr QuizResult × List (Option Json) :=
  if pyStrip topic = "" then
    (Except.ok (QuizResult.failure "Please provide a topic for the quiz" []), oracle)
  else
    match takeResp oracle with
    | (none, o1) =>
        (Except.ok (QuizResult.failure
          "Failed to generate easy questions. Please try again." []), o1)
    | (some ej, o1) =>
        match processTier ej 0 "EASY" with
        | Except.error e => (Except.error e, o1)
        | Except.ok easyQs =>
            match takeResp o1 with
            | (none, o2) =>
                (Except.ok (QuizResult.failure
                  "Failed to generate medium questions. Please try again." []), o2)
            | (some mj, o2) =>
                match processTier mj easyQs.length "MEDIUM" with
                | Except.error e => (Except.error e, o2)
                | Except.ok medQs =>
                    match takeResp o2 with
                    | (none, o3) =>
                        (Except.ok (QuizResult.failure
                          "Failed to generate hard questions. Please try again." []), o3)
                    | (some hj, o3) =>
                        match processTier hj (easyQs.length + medQs.length) "HARD" with
                        | Except.error e => (Except.error e, o3)
                        | Except.ok hardQs =>
                            if (easyQs ++ medQs ++ hardQs).length ≠ 10 then
                              (Except.ok (QuizResult.failure
                                ("Expected 10 questions but got " ++
                                  toString (easyQs ++ medQs ++ hardQs).length ++
                                  ". Please try again.") []), o3)
                            else
                              (Except.ok (QuizResult.success
                                "Quiz generated successfully" (easyQs ++ medQs ++ hardQs)
                                (pyStrip topic)), o3)

/-- Whether a `generate_quiz` outcome is a success dict. -/
def quizIsSuccess : Except PyErr QuizResult → Bool
  | Except.ok (QuizResult.success _ _ _) => true
  | _ => false

/-- The `questions` list of a `generate_quiz` success, `[]` otherwise. -/
def quizQuestionsOf : Except PyErr QuizResult → List Question
  | Except.ok (QuizResult.success _ qs _) => qs
  | _ => []

/-- The per-user session keys touched by the submit handler of `app.py`
(`current_questions` and `current_topic`; `none` = key absent). -/
structure Session where
  current_questions : Option (List Question)
  current_topic : Option String

/-- One element of the `detailed_results` list built by `api_submit_game`. -/
structure DetailedResult where
  question_number : Nat
  user_answer : String
  correct_answer : String
  is_correct : Bool
  question : Json
  difficulty : String

/-- The JSON body (plus HTTP status) returned by `api_submit_game`: either
one of its failure dicts or the success dict (whose status is 200). -/
inductive SubmitResp where
  | failure (message : String) (status : Nat)
  | success (score : Nat) (total : Nat) (result : String) (topic : String)
      (detailed_results : List DetailedResult) (saved : Bool)

/-- The scoring loop of `api_submit_game`: walk the held questions with index
`i`, lowercase `user_answers[i]` (the source guards the index and falls back
to `""`) and `question["correct"]` (raising `AttributeError` on a non-string,
as Python's `.lower()` would), tally the score and build the per-question
breakdown. -/
def scoreLoop (answers : List String) : Nat → List Question →
    Except PyErr (Nat × List DetailedResult)
  | _, [] => Except.ok (0, [])
  | i, q :: rest =>
      let user_answer := match answers[i]? with
        | some a => pyLower a
        | none => ""
      match pyStrLower q.correct with
      | Except.error e => Except.error e
      | Except.ok correct_answer =>
          let is_correct := user_answer == correct_answer
          match scoreLoop answers (i + 1) rest with
          | Except.error e => Except.error e
          | Except.ok (s, ds) =>
              Except.ok
                ((if is_correct then 1 else 0) + s,
                 { question_number := i + 1,
                   user_answer := user_answer,
                   correct_answer := correct_answer,
                   is_correct := is_correct,
                   question := q.question,
                   difficulty := q.difficulty } :: ds)

/-- `api_submit_game` from `app.py`, from the point where the request data
has been read (the handler's login and missing-body guards are routing
plumbing outside this pipeline).  `answers` is the request's `answers` list,
`topic` its `topic` field (`""` when absent, matching `data.get("topic",
"")`), `sess` the session, and `dbSaveOk` the success flag returned by the
external `database.create_game_history` collaborator.  Returns the response
and the session as left after the request. -/
def api_submit_game (answers : List String) (topic : String) (sess : Session)
    (dbSaveOk : Bool) : Except PyErr (SubmitResp × Session) :=
  let questions := sess.current_questions.getD []
  if questions.isEmpty then
    Except.ok (SubmitResp.failure "No active quiz found" 400, sess)
  else if answers.length ≠ questions.length then
    Except.ok (SubmitResp.failure
      ("Expected " ++ toString questions.length ++ " answers but received " ++
        toString answers.length) 400, sess)
  else
    match scoreLoop answers 0 questions with
    | Except.error e => Except.error e
    | Except.ok (score, detailed_results) =>
        let result := if 7 ≤ score then "WON" else "LOST"
        let finalTopic := if topic = "" then sess.current_topic.getD "Unknown Topic" else topic
        Except.ok
          (SubmitResp.success score 10 result finalTopic detailed_results dbSaveOk,
           { current_questions := none, current_topic := none })

/-- Whether a submit outcome is the success dict. -/
def submitIsSuccess : Except PyErr (SubmitResp × Session) → Bool
  | Except.ok (SubmitResp.success _ _ _ _ _ _, _) => true
  | _ => false

/-- Whether a submit outcome is one of the failure dicts. -/
def submitIsFailure : Except PyErr (SubmitResp × Session) → Bool
  | Except.ok (SubmitResp.failure _ _, _) => true
  | _ => false

/-- The session left behind by a submit request (`none` when the handler
raised). -/
def submitSessOf : Except PyErr (SubmitResp × Session) → Option Session
  | Except.ok (_, s) => some s
  | _ => none

/-- The `score` field of a successful submit response. -/
def submitScoreOf : Except PyErr (SubmitResp × Session) → Option Nat
  | Except.ok (SubmitResp.success sc _ _ _ _ _, _) => some sc
  | _ => none

/-- The `total` field of a successful submit response. -/
def submitTotalOf : Except PyErr (SubmitResp × Session) → Option Nat
  | Except.ok (SubmitResp.success _ tot _ _ _ _, _) => some tot
  | _ => none

/-- The `result` field of a successful submit response. -/
def submitResultOf : Except PyErr (SubmitResp × Session) → Option String
  | Except.ok (SubmitResp.success _ _ res _ _ _, _) => some res
  | _ => none

/-- The `saved` field of a successful submit response. -/
def submitSavedOf : Except PyErr (SubmitResp × Session) → Option Bool
  | Except.ok (SubmitResp.success _ _ _ _ _ sv, _) => some sv
  | _ => none

/-- Case-insensitive match between a submitted answer and the correct label
of a question: this is the specification-side predicate the score is counted
by (false on a non-string label, a case scoring would raise on anyway). -/
def answerMatches (a : String) (q : Question) : Bool :=
  match q.correct with
  | Json.str c => pyLower a == pyLower c
  | _ => false

/-- The number of positions at which the lowercased submitted answer equals
the lowercased correct label of the question at the same position. -/
def countMatches (answers : List String) (qs : List Question) : Nat :=
  ((answers.zip qs).filter (fun p => answerMatches p.1 p.2)).length

/-! ### Helper lemmas about the tier processing -/

theorem buildQuestions_spec (diff : String) (l : List (String × Json)) :
    ∀ (n : Nat) (qs : List Question),
      buildQuestions diff l n = Except.ok qs →
      qs.length = l.length ∧
      qs.map Question.difficulty = List.replicate l.length diff ∧
      qs.map Question.question_number = List.range' (n + 1) l.length ∧
      ∀ q ∈ qs, ∃ kv, kv ∈ l ∧
        pySubscript kv.2 "question" = Except.ok q.question ∧
        pySubscript kv.2 "options" = Except.ok q.options ∧
        pySubscript kv.2 "correct" = Except.ok q.correct := by
  induction l with
  | nil =>
      intro n qs h
      simp only [buildQuestions] at h
      cases h
      simp [List.range']
  | cons kv rest ih =>
      obtain ⟨k, qd⟩ := kv
      intro n qs h
      simp only [buildQuestions] at h
      cases hq : pySubscript qd "question" with
      | error e => rw [hq] at h; cases h
      | ok q =>
        rw [hq] at h
        cases ho : pySubscript qd "options" with
        | error e => rw [ho] at h; cases h
        | ok o =>
          rw [ho] at h
          cases hc : pySubscript qd "correct" with
          | error e => rw [hc] at h; cases h
          | ok c =>
            rw [hc] at h
            cases hr : buildQuestions diff rest (n + 1) with
            | error e => rw [hr] at h; cases h
            | ok tail =>
              rw [hr] at h
              cases h
              obtain ⟨hlen, hdiff, hnum, hfields⟩ := ih (n + 1) tail hr
              refine ⟨by simp [hlen], by simp [hdiff, List.replicate_succ], ?_, ?_⟩
              · simp only [List.map_cons, hnum, List.length_cons, List.range'_succ]
              · intro q hqmem
                rcases List.mem_cons.mp hqmem with hhd | htl
                · exact ⟨(k, qd), List.mem_cons_self _ _, by rw [hhd]; exact hq,
                    by rw [hhd]; exact ho, by rw [hhd]; exact hc⟩
                · obtain ⟨kv', hkv', h1, h2, h3⟩ := hfields q htl
                  exact ⟨kv', List.mem_cons_of_mem _ hkv', h1, h2, h3⟩

theorem parseTierKeys_mem (entries : List (String × Json)) :
    ∀ keyed, parseTierKeys entries = Except.ok keyed → ∀ x ∈ keyed, x.2 ∈ entries := by
  induction entries with
  | nil =>
      intro keyed h x hx
      simp only [parseTierKeys] at h
      cases h
      cases hx
  | cons kv rest ih =>
      intro keyed h x hx
      simp only [parseTierKeys] at h
      cases hk : pyToInt kv.1 with
      | none => rw [hk] at h; cases h
      | some nv =>
        rw [hk] at h
        cases hr : parseTierKeys rest with
        | error e => rw [hr] at h; cases h
        | ok tail =>
          rw [hr] at h
          cases h
          rcases List.mem_cons.mp hx with hhd | htl
          · rw [hhd]; exact List.mem_cons_self _ _
          · exact List.mem_cons_of_mem _ (ih tail hr x htl)

theorem processTier_ok (j : Json) (s : Nat) (diff : String) (qs : List Question)
    (h : processTier j s diff = Except.ok qs) :
    qs.map Question.difficulty = List.replicate qs.length diff ∧
    qs.map Question.question_number = List.range' (s + 1) qs.length := by
  unfold processTier at h
  cases hd : pyDictEntries j with
  | error e => rw [hd] at h; cases h
  | ok entries =>
    rw [hd] at h
    dsimp only at h
    cases hp : parseTierKeys entries with
    | error e => rw [hp] at h; cases h
    | ok keyed =>
      rw [hp] at h
      dsimp only at h
      obtain ⟨hlen, hdiff, hnum, _⟩ := buildQuestions_spec diff _ s qs h
      exact ⟨by rw [hdiff, hlen], by rw [hnum, hlen]⟩

theorem processTier_fields (j : Json) (s : Nat) (diff : String) (qs : List Question)
    (h : processTier j s diff = Except.ok qs) :
    ∀ q ∈ qs, ∃ entries kv, pyDictEntries j = Except.ok entries ∧ kv ∈ entries ∧
      pySubscript kv.2 "question" = Except.ok q.question ∧
      pySubscript kv.2 "options" = Except.ok q.options ∧
      pySubscript kv.2 "correct" = Except.ok q.correct := by
  unfold processTier at h
  cases hd : pyDictEntries j with
  | error e => rw [hd] at h; cases h
  | ok entries =>
    rw [hd] at h
    dsimp only at h
    cases hp : parseTierKeys entries with
    | error e => rw [hp] at h; cases h
    | ok keyed =>
      rw [hp] at h
      dsimp only at h
      intro q hq
      obtain ⟨_, _, _, hfields⟩ := buildQuestions_spec diff _ s qs h
      obtain ⟨kv', hkv', h1, h2, h3⟩ := hfields q hq
      obtain ⟨x, hx, hx2⟩ := List.mem_map.mp hkv'
      have hxk : x ∈ keyed := (List.perm_insertionSort tierKeyLE keyed).mem_iff.mp hx
      refine ⟨entries, kv', rfl, ?_, h1, h2, h3⟩
      have := parseTierKeys_mem entries keyed hp x hxk
      rw [← hx2]
      exact this

theorem generate_quiz_success_shape (topic : String) (oracle rest : List (Option Json))
    (m t : String) (qs : List Question)
    (h : generate_quiz topic oracle = (Except.ok (QuizResult.success m qs t), rest)) :
    ∃ ej mj hj easyQs medQs hardQs,
      oracle = some ej :: some mj :: some hj :: rest ∧
      processTier ej 0 "EASY" = Except.ok easyQs ∧
      processTier mj easyQs.length "MEDIUM" = Except.ok medQs ∧
      processTier hj (easyQs.length + medQs.length) "HARD" = Except.ok hardQs ∧
      qs = easyQs ++ medQs ++ hardQs ∧ qs.length = 10 ∧
      m = "Quiz generated successfully" ∧ t = pyStrip topic := by
  by_cases htop : pyStrip topic = ""
  · rw [generate_quiz, if_pos htop] at h
    simp at h
  · rw [generate_quiz, if_neg htop] at h
    cases oracle with
    | nil => simp [takeResp] at h
    | cons r1 o1 =>
      cases r1 with
      | none => simp [takeResp] at h
      | some ej =>
        simp only [takeResp] at h
        cases hE : processTier ej 0 "EASY" with
        | error e => rw [hE] at h; simp at h
        | ok easyQs =>
          rw [hE] at h
          dsimp only at h
          cases o1 with
          | nil => simp [takeResp] at h
          | cons r2 o2 =>
            cases r2 with
            | none => simp [takeResp] at h
            | some mj =>
              simp only [takeResp] at h
              cases hM : processTier mj easyQs.length "MEDIUM" with
              | error e => rw [hM] at h; simp at h
              | ok medQs =>
                rw [hM] at h
                dsimp only at h
                cases o2 with
                | nil => simp [takeResp] at h
                | cons r3 o3 =>
                  cases r3 with
                  | none => simp [takeResp] at h
                  | some hj =>
                    simp only [takeResp] at h
                    cases hH : processTier hj (easyQs.length + medQs.length) "HARD" with
                    | error e => rw [hH] at h; simp at h
                    | ok hardQs =>
                      rw [hH] at h
                      dsimp only at h
                      by_cases hlen : (easyQs ++ medQs ++ hardQs).length ≠ 10
                      · rw [if_pos hlen] at h
                        simp at h
                      · rw [if_neg hlen] at h
                        obtain ⟨⟨hm, hqs, ht⟩, hrest⟩ :
                            (m = "Quiz generated successfully" ∧
                              qs = easyQs ++ (medQs ++ hardQs) ∧ t = pyStrip topic) ∧
                              o3 = rest := by
                          constructor
                          · have h1 := congrArg Prod.fst h
                            simp at h1
                            exact ⟨h1.1.symm, h1.2.1.symm, h1.2.2.symm⟩
                          · have h2 := congrArg Prod.snd h
                            simpa using h2
                        subst hm ht hrest
                        refine ⟨ej, mj, hj, easyQs, medQs, hardQs, rfl, hE, hM, hH, ?_, ?_,
                          rfl, rfl⟩
                        · rw [hqs, List.append_assoc]
                        · rw [hqs, ← List.append_assoc]
                          exact not_not.mp hlen

theorem range'_block (a b c : Nat) :
    List.range' 1 a ++ List.range' (a + 1) b ++ List.range' (a + b + 1) c =
      List.range' 1 (a + b + c) := by
  have h1 : List.range' 1 a ++ List.range' (1 + a) b = List.range' 1 (b + a) :=
    List.range'_append_1 1 a b
  rw [Nat.add_comm 1 a] at h1
  rw [h1]
  have h2 : List.range' 1 (b + a) ++ List.range' (1 + (b + a)) c = List.range' 1 (c + (b + a)) :=
    List.range'_append_1 1 (b + a) c
  have e1 : a + b + 1 = 1 + (b + a) := by omega
  rw [e1, h2]
  congr 1
  omega

/-! ### Concrete fixtures (well-formed and malformed service responses) -/

/-- A well-formed options dict with the four labels a, b, c, d. -/
def goodOpts : Json :=
  Json.obj [("a", Json.str "A"), ("b", Json.str "B"), ("c", Json.str "C"), ("d", Json.str "D")]

/-- A well-formed question entry as the service contract describes. -/
def mkEntry (txt lbl : String) : Json :=
  Json.obj [("question", Json.str txt), ("options", goodOpts),
    ("correct", Json.str lbl), ("difficulty", Json.str "EASY")]

/-- A concrete fallback question (used only as a `getD` default). -/
def qEasyA0 : Question :=
  { question_number := 1,
    question := Json.str "q1",
    options := goodOpts,
    correct := Json.str "a",
    difficulty := "EASY" }

/-- A tier response dict with `n` well-formed entries keyed "1".."n". -/
def mkTier (pre : String) (n : Nat) : Json :=
  Json.obj ((List.range' 1 n).map (fun i => (toString i, mkEntry (pre ++ toString i) "a")))

/-- A fully well-formed response stream: 5 easy, 3 medium, 2 hard entries. -/
def okOracle532 : List (Option Json) :=
  [some (mkTier "e" 5), some (mkTier "m" 3), some (mkTier "h" 2)]

/-- The questions of the successful quiz generated from `okOracle532`. -/
def qs532 : List Question :=
  quizQuestionsOf (generate_quiz "Oceans" okOracle532).fst

/-- A response stream in which the easy tier brought 4 entries and the
medium tier 4: the totals still add up to 10. -/
def oracle442 : List (Option Json) :=
  [some (mkTier "e" 4), some (mkTier "m" 4), some (mkTier "h" 2)]

/-! ### C1 -/

/-- C1 counterexample: with a service that returns 4 easy, 4 medium and 2
hard entries, `generate_quiz` still succeeds (only the overall total of 10
is checked), and the difficulty sequence of the returned questions is not
5 EASY + 3 MEDIUM + 2 HARD. -/
theorem c1_counterexample :
    quizIsSuccess (generate_quiz "Oceans" oracle442).fst = true ∧
    (quizQuestionsOf (generate_quiz "Oceans" oracle442).fst).map Question.difficulty ≠
      List.replicate 5 "EASY" ++ List.replicate 3 "MEDIUM" ++ List.replicate 2 "HARD" := by
  constructor
  · decide
  · decide

/-- C1 (amended): every successful `generate_quiz` call returns exactly 10
questions whose `question_number` fields are exactly 1..10 with no gaps, and
whose difficulties form contiguous EASY, MEDIUM, HARD blocks in that order —
but the block sizes are the entry counts the tiers actually returned (summing
to 10), not necessarily 5/3/2, because the code checks only the overall
total. -/
theorem c1_amended (topic : String) (oracle rest : List (Option Json))
    (m t : String) (qs : List Question)
    (h : generate_quiz topic oracle = (Except.ok (QuizResult.success m qs t), rest)) :
    qs.length = 10 ∧
    qs.map Question.question_number = List.range' 1 10 ∧
    ∃ a b c, a + b + c = 10 ∧
      qs.map Question.difficulty =
        List.replicate a "EASY" ++ List.replicate b "MEDIUM" ++ List.replicate c "HARD" := by
  obtain ⟨ej, mj, hj, e, mQ, hQ, _, hE, hM, hH, hqs, hlen, _, _⟩ :=
    generate_quiz_success_shape topic oracle rest m t qs h
  obtain ⟨hde, hne⟩ := processTier_ok _ _ _ _ hE
  obtain ⟨hdm, hnm⟩ := processTier_ok _ _ _ _ hM
  obtain ⟨hdh, hnh⟩ := processTier_ok _ _ _ _ hH
  subst hqs
  have hsum : e.length + mQ.length + hQ.length = 10 := by
    have := hlen
    simp [List.length_append] at this
    omega
  refine ⟨hlen, ?_, e.length, mQ.length, hQ.length, hsum, ?_⟩
  · rw [List.map_append, List.map_append, hne, hnm, hnh, range'_block, hsum]
  · rw [List.map_append, List.map_append, hde, hdm, hdh]

/-- C1 witness: the amended statement applied to a concrete fully
well-formed 5/3/2 response stream. -/
theorem c1_witness :
    qs532.length = 10 ∧
    qs532.map Question.question_number = List.range' 1 10 ∧
    ∃ a b c, a + b + c = 10 ∧
      qs532.map Question.difficulty =
        List.replicate a "EASY" ++ List.replicate b "MEDIUM" ++ List.replicate c "HARD" :=
  c1_amended "Oceans" okOracle532 [] "Quiz generated successfully" "Oceans" qs532 rfl

/-! ### C2 -/

/-- A raw service response: fenced JSON whose single entry lacks the
`question` field (it has only `options`, `correct` and `difficulty`). -/
def rawMissingQuestion : String :=
  "```json\n\x7b\"1\": \x7b\"options\": \x7b\"a\": \"Mercury\", \"b\": \"Venus\", \"c\": \"Earth\", \"d\": \"Mars\"\x7d, \"correct\": \"a\", \"difficulty\": \"EASY\"\x7d\x7d\n```"

/-- The parsed value of `rawMissingQuestion` (what `json.loads` yields on its
cleaned text): entry "1" has no `question` key. -/
def tierMissingQuestion : Json :=
  Json.obj [("1", Json.obj
    [("options", Json.obj [("a", Json.str "Mercury"), ("b", Json.str "Venus"),
        ("c", Json.str "Earth"), ("d", Json.str "Mars")]),
     ("correct", Json.str "a"),
     ("difficulty", Json.str "EASY")])]

/-- A `json.loads` oracle that parses the cleaned text of
`rawMissingQuestion` to `tierMissingQuestion` (and rejects anything else). -/
def loadsMissingQuestion : String → Option Json :=
  fun s => if s = clean_json_response rawMissingQuestion then some tierMissingQuestion else none

/-- C2: when the cleaned response text parses as JSON but an entry lacks the
`question` field, `generate_questions_by_difficulty` happily returns the
parsed dict (it validates nothing beyond the parse), and `generate_quiz`'s
per-entry processing then raises an uncaught `KeyError("question")` instead
of returning one of its structured failure dicts — the exception escapes the
pipeline, contradicting the documented contract that the function returns a
success/message/questions dict. -/
theorem c2_missing_field_raises :
    generate_questions_by_difficulty loadsMissingQuestion "Planets" 5 "EASY"
        (Except.ok rawMissingQuestion) = some tierMissingQuestion ∧
    generate_quiz "Planets" [some tierMissingQuestion] =
      (Except.error (PyErr.keyError "question"), []) := by
  constructor
  · simp [generate_questions_by_difficulty, loadsMissingQuestion]
  · rfl

/-! ### C3 -/

/-- Whether a parsed entry value satisfies the spec's structural invariant:
its `options` field is a dict with keys exactly a, b, c, d and its `correct`
field is a string among those keys. -/
def goodEntryB (qd : Json) : Bool :=
  match pySubscript qd "options", pySubscript qd "correct" with
  | Except.ok (Json.obj opts), Except.ok (Json.str c) =>
      decide ((opts.map Prod.fst) = ["a", "b", "c", "d"]) && (opts.map Prod.fst).contains c
  | _, _ => false

/-- Whether a composed question satisfies the spec's invariant: its options
are a dict with keys exactly a, b, c, d and its correct label is a string
among those keys. -/
def questionInvariantB (q : Question) : Bool :=
  match q.options, q.correct with
  | Json.obj opts, Json.str c =>
      decide ((opts.map Prod.fst) = ["a", "b", "c", "d"]) && (opts.map Prod.fst).contains c
  | _, _ => false

/-- Whether every entry of a pending tier response satisfies the entry
invariant (vacuously true for responses that can never reach the quiz). -/
def tierRespGoodB : Option Json → Bool
  | some (Json.obj entries) => entries.all (fun kv => goodEntryB kv.2)
  | _ => true

/-- An easy-tier response whose 5 entries all have a one-key options dict
and a correct label "z" not among the options, plus well-formed medium and
hard tiers. -/
def oracleBadOptions : List (Option Json) :=
  [some (Json.obj ((List.range' 1 5).map (fun i =>
      (toString i, Json.obj [("question", Json.str ("e" ++ toString i)),
        ("options", Json.obj [("x", Json.str "only")]),
        ("correct", Json.str "z"),
        ("difficulty", Json.str "EASY")])))),
   some (mkTier "m" 3), some (mkTier "h" 2)]

/-- C3 counterexample: `generate_quiz` copies `options` and `correct`
verbatim without any validation, so from `oracleBadOptions` it successfully
composes a quiz containing questions whose options do not have keys
{a,b,c,d} and whose correct label is not an option key. -/
theorem c3_counterexample :
    quizIsSuccess (generate_quiz "Oceans" oracleBadOptions).fst = true ∧
    (quizQuestionsOf (generate_quiz "Oceans" oracleBadOptions).fst).all questionInvariantB
      = false := by
  constructor
  · decide
  · decide

/-- C3 (amended): the composer propagates, rather than enforces, the
options/correct invariant: if every entry of every pending tier response has
an options dict with keys exactly a, b, c, d and a string correct label
among those keys, then every question of a successfully composed quiz
satisfies the invariant.  For arbitrary well-formed JSON responses the
invariant can fail (see the counterexample). -/
theorem c3_amended (topic : String) (oracle rest : List (Option Json))
    (m t : String) (qs : List Question)
    (hgood : oracle.all tierRespGoodB = true)
    (h : generate_quiz topic oracle = (Except.ok (QuizResult.success m qs t), rest)) :
    ∀ q ∈ qs, questionInvariantB q = true := by
  obtain ⟨ej, mj, hj, e, mQ, hQ, horacle, hE, hM, hH, hqs, _, _, _⟩ :=
    generate_quiz_success_shape topic oracle rest m t qs h
  subst hqs horacle
  simp only [List.all_cons, Bool.and_eq_true] at hgood
  have main : ∀ (j : Json) (s : Nat) (d : String) (tqs : List Question),
      tierRespGoodB (some j) = true → processTier j s d = Except.ok tqs →
      ∀ q ∈ tqs, questionInvariantB q = true := by
    intro j s d tqs hg hok q hq
    obtain ⟨entries, kv, hde, hkv, h1, h2, h3⟩ := processTier_fields j s d tqs hok q hq
    have hjobj : j = Json.obj entries := by
      cases j <;> simp [pyDictEntries] at hde
      rw [hde]
    subst hjobj
    rw [tierRespGoodB] at hg
    have hgkv : goodEntryB kv.2 = true := by
      rw [List.all_eq_true] at hg
      exact hg kv hkv
    rw [goodEntryB] at hgkv
    rw [questionInvariantB]
    rw [h2, h3] at hgkv
    cases hopt : q.options <;> cases hcor : q.correct <;> rw [hopt, hcor] at hgkv <;>
      simpa using hgkv
  intro q hq
  rcases List.mem_append.mp hq with hq' | hq3
  · rcases List.mem_append.mp hq' with hq1 | hq2
    · exact main ej 0 "EASY" e hgood.1 hE q hq1
    · exact main mj e.length "MEDIUM" mQ hgood.2.1 hM q hq2
  · exact main hj (e.length + mQ.length) "HARD" hQ hgood.2.2.1 hH q hq3

/-- C3 witness: the amended statement applied to the concrete fully
well-formed 5/3/2 response stream, specialized to the first question of the
composed quiz. -/
theorem c3_witness :
    questionInvariantB ((qs532.head?).getD qEasyA0) = true :=
  c3_amended "Oceans" okOracle532 [] "Quiz generated successfully" "Oceans" qs532 rfl rfl
    ((qs532.head?).getD qEasyA0) (List.mem_of_mem_head? (by rfl))

/-! ### C4 -/

/-- The questions of a tier-processing success, `[]` on an exception. -/
def exOk : Except PyErr (List Question) → List Question
  | Except.ok qs => qs
  | Except.error _ => []

/-- C4: whichever of the three tiers is the first whose generation (or
normalization) fails with `None`, `generate_quiz` stops right there and
returns the failure dict naming that tier with an empty `questions` list —
the questions already built for earlier tiers are discarded and the later
tier calls are never made (the returned response stream is exactly the
unconsumed remainder). -/
theorem c4_abort_on_tier_failure (topic : String) (rest : List (Option Json))
    (ej mj : Json) (eqs mqs : List Question) (ht : pyStrip topic ≠ "") :
    (generate_quiz topic (none :: rest) =
      (Except.ok (QuizResult.failure
        "Failed to generate easy questions. Please try again." []), rest)) ∧
    (processTier ej 0 "EASY" = Except.ok eqs →
      generate_quiz topic (some ej :: none :: rest) =
        (Except.ok (QuizResult.failure
          "Failed to generate medium questions. Please try again." []), rest)) ∧
    (processTier ej 0 "EASY" = Except.ok eqs →
      processTier mj eqs.length "MEDIUM" = Except.ok mqs →
      generate_quiz topic (some ej :: some mj :: none :: rest) =
        (Except.ok (QuizResult.failure
          "Failed to generate hard questions. Please try again." []), rest)) := by
  refine ⟨?_, ?_, ?_⟩
  · rw [generate_quiz, if_neg ht]
    simp only [takeResp]
  · intro hE
    rw [generate_quiz, if_neg ht]
    simp only [takeResp, hE]
  · intro hE hM
    rw [generate_quiz, if_neg ht]
    simp only [takeResp, hE, hM]

/-- C4 witness: a concrete medium-tier failure after a successful easy tier:
the failure names the medium tier, carries no questions, and the hard-tier
response is left unconsumed. -/
theorem c4_witness :
    generate_quiz "Oceans" [some (mkTier "e" 5), none] =
      (Except.ok (QuizResult.failure
        "Failed to generate medium questions. Please try again." []), []) :=
  (c4_abort_on_tier_failure "Oceans" [] (mkTier "e" 5) (mkTier "m" 3)
    (exOk (processTier (mkTier "e" 5) 0 "EASY")) [] (by decide)).2.1 rfl

/-! ### Helper lemmas about the scoring loop -/

/-- The number of matching positions from index `i` on, mirroring how the
scoring loop indexes the submitted answers. -/
def countMatchesFrom (answers : List String) : Nat → List Question → Nat
  | _, [] => 0
  | i, q :: rest =>
      (if answerMatches ((answers[i]?).getD "") q then 1 else 0) +
        countMatchesFrom answers (i + 1) rest

theorem scoreLoop_ok (answers : List String) (qs : List Question) :
    ∀ i, (∀ q ∈ qs, q.correct.isStr = true) →
      ∃ ds, scoreLoop answers i qs = Except.ok (countMatchesFrom answers i qs, ds) := by
  induction qs with
  | nil => intro i _; exact ⟨[], rfl⟩
  | cons q rest ih =>
      intro i hstr
      have hq : q.correct.isStr = true := hstr q (List.mem_cons_self _ _)
      obtain ⟨c, hc⟩ : ∃ c, q.correct = Json.str c := by
        cases hcor : q.correct <;> rw [hcor] at hq <;> simp [Json.isStr] at hq
        exact ⟨_, rfl⟩
      obtain ⟨ds, hds⟩ := ih (i + 1) (fun q' hq' => hstr q' (List.mem_cons_of_mem _ hq'))
      cases hai : answers[i]? with
      | none =>
          refine
            ⟨{ question_number := i + 1,
               user_answer := "",
               correct_answer := pyLower c,
               is_correct := ("" == pyLower c),
               question := q.question,
               difficulty := q.difficulty } :: ds, ?_⟩
          simp only [scoreLoop, hai, hc, pyStrLower, hds, countMatchesFrom, answerMatches,
            Option.getD_none]
          rfl
      | some a =>
          refine
            ⟨{ question_number := i + 1,
               user_answer := pyLower a,
               correct_answer := pyLower c,
               is_correct := (pyLower a == pyLower c),
               question := q.question,
               difficulty := q.difficulty } :: ds, ?_⟩
          simp only [scoreLoop, hai, hc, pyStrLower, hds, countMatchesFrom, answerMatches,
            Option.getD_some]

theorem countMatchesFrom_eq (answers : List String) (qs : List Question) :
    ∀ i, answers.length = i + qs.length →
      countMatchesFrom answers i qs =
        ((answers.drop i).zip qs).countP (fun p => answerMatches p.1 p.2) := by
  induction qs with
  | nil => intro i _; simp [countMatchesFrom]
  | cons q rest ih =>
      intro i hlen
      have hi : i < answers.length := by simp at hlen; omega
      have hdrop : answers.drop i = answers[i] :: answers.drop (i + 1) :=
        List.drop_eq_getElem_cons hi
      have hget : answers[i]? = some answers[i] := List.getElem?_eq_getElem hi
      rw [countMatchesFrom, hdrop, List.zip_cons_cons, List.countP_cons,
        ih (i + 1) (by simp at hlen ⊢; omega), hget]
      simp only [Option.getD_some]
      by_cases hm : answerMatches answers[i] q = true
      · simp [hm, Nat.add_comm]
      · simp [hm]

/-- The score characterization for equal-length inputs: the loop's count is
the number of positions where the lowercased answer matches the lowercased
correct label. -/
theorem countMatchesFrom_zero (answers : List String) (qs : List Question)
    (hlen : answers.length = qs.length) :
    countMatchesFrom answers 0 qs = countMatches answers qs := by
  rw [countMatchesFrom_eq answers qs 0 (by omega), countMatches,
    List.countP_eq_length_filter, List.drop_zero]

/-! ### Submit-handler fixtures and success shape -/

/-- A concrete held question whose correct label is "a". -/
def qEasyA : Question :=
  { question_number := 1,
    question := Json.str "q1",
    options := goodOpts,
    correct := Json.str "a",
    difficulty := "EASY" }

/-- A concrete held question whose correct label is "c". -/
def qHardC : Question :=
  { question_number := 2,
    question := Json.str "q2",
    options := goodOpts,
    correct := Json.str "c",
    difficulty := "HARD" }

/-- A session holding no quiz. -/
def sessEmpty : Session := { current_questions := none, current_topic := none }

/-- A session holding a two-question quiz on topic "T". -/
def sessTwo : Session :=
  { current_questions := some [qEasyA, qHardC], current_topic := some "T" }

theorem api_submit_game_success_eq (answers : List String) (topic : String)
    (sess : Session) (dbOk : Bool) (qs : List Question)
    (hq : sess.current_questions = some qs) (hne : qs.isEmpty = false)
    (hlen : answers.length = qs.length)
    (hstr : ∀ q ∈ qs, q.correct.isStr = true) :
    ∃ ds, api_submit_game answers topic sess dbOk =
      Except.ok (SubmitResp.success (countMatches answers qs) 10
        (if 7 ≤ countMatches answers qs then "WON" else "LOST")
        (if topic = "" then sess.current_topic.getD "Unknown Topic" else topic) ds dbOk,
       { current_questions := none, current_topic := none }) := by
  obtain ⟨ds, hds⟩ := scoreLoop_ok answers qs 0 hstr
  refine ⟨ds, ?_⟩
  simp only [api_submit_game, hq, Option.getD_some, hne, Bool.false_eq_true, if_false,
    hlen, ne_eq, not_true_eq_false, hds, countMatchesFrom_zero answers qs hlen]

/-! ### C5 -/

/-- C5: the submit handler refuses to score when the session holds no
questions (failure "No active quiz found", no score in the response), refuses
when the answer count differs from the question count (failure naming the
expected and received counts, the session untouched in both cases), and any
success response can only arise when the two lengths are equal. -/
theorem c5_submit_preconditions (answers : List String) (topic : String)
    (sess : Session) (dbOk : Bool) :
    (sess.current_questions.getD [] = [] →
      api_submit_game answers topic sess dbOk =
        Except.ok (SubmitResp.failure "No active quiz found" 400, sess)) ∧
    (∀ qs, sess.current_questions.getD [] = qs → qs ≠ [] →
      answers.length ≠ qs.length →
      api_submit_game answers topic sess dbOk =
        Except.ok (SubmitResp.failure
          ("Expected " ++ toString qs.length ++ " answers but received " ++
            toString answers.length) 400, sess)) ∧
    (submitIsSuccess (api_submit_game answers topic sess dbOk) = true →
      answers.length = (sess.current_questions.getD []).length) := by
  refine ⟨?_, ?_, ?_⟩
  · intro h
    simp only [api_submit_game, h, List.isEmpty_nil, if_true]
  · intro qs hqs hne hlen
    simp only [api_submit_game, hqs, List.isEmpty_eq_false.mpr hne, Bool.false_eq_true,
      if_false]
    rw [if_pos hlen]
  · intro hsucc
    by_cases h1 : (sess.current_questions.getD []).isEmpty = true
    · have hx : api_submit_game answers topic sess dbOk =
          Except.ok (SubmitResp.failure "No active quiz found" 400, sess) := by
        simp only [api_submit_game]
        rw [if_pos h1]
      rw [hx] at hsucc
      simp [submitIsSuccess] at hsucc
    · by_cases h2 : answers.length ≠ (sess.current_questions.getD []).length
      · have hx : api_submit_game answers topic sess dbOk =
            Except.ok (SubmitResp.failure
              ("Expected " ++ toString (sess.current_questions.getD []).length ++
                " answers but received " ++ toString answers.length) 400, sess) := by
          simp only [api_submit_game]
          rw [if_neg h1, if_pos h2]
        rw [hx] at hsucc
        simp [submitIsSuccess] at hsucc
      · exact not_not.mp h2

/-- C5 witness: the no-active-quiz failure on an empty session, and the
count-mismatch failure (1 answer against 2 held questions) naming both
counts. -/
theorem c5_witness :
    (api_submit_game [] "" sessEmpty true =
      Except.ok (SubmitResp.failure "No active quiz found" 400, sessEmpty)) ∧
    (api_submit_game ["a"] "" sessTwo true =
      Except.ok (SubmitResp.failure "Expected 2 answers but received 1" 400, sessTwo)) :=
  ⟨(c5_submit_preconditions [] "" sessEmpty true).1 rfl,
   (c5_submit_preconditions ["a"] "" sessTwo true).2.1 [qEasyA, qHardC] rfl
     (List.cons_ne_nil _ _) (by decide)⟩

/-! ### C6 -/

/-- C6: with a non-empty held list and an equal-length answer list (and the
string correct labels scoring relies on), the returned score is exactly the
number of positions whose lowercased submitted answer equals the lowercased
correct label (so "A" matches "a"), and the result is "WON" exactly when the
score is at least 7. -/
theorem c6_score_and_outcome (answers : List String) (topic : String)
    (sess : Session) (dbOk : Bool) (qs : List Question)
    (hq : sess.current_questions = some qs)
    (hne : qs.isEmpty = false)
    (hlen : answers.length = qs.length)
    (hstr : qs.all (fun q => q.correct.isStr) = true) :
    submitScoreOf (api_submit_game answers topic sess dbOk) =
      some (countMatches answers qs) ∧
    submitResultOf (api_submit_game answers topic sess dbOk) =
      some (if 7 ≤ countMatches answers qs then "WON" else "LOST") ∧
    (submitResultOf (api_submit_game answers topic sess dbOk) = some "WON" ↔
      7 ≤ countMatches answers qs) := by
  obtain ⟨ds, hapi⟩ := api_submit_game_success_eq answers topic sess dbOk qs hq hne hlen
    (fun q hqm => List.all_eq_true.mp hstr q hqm)
  rw [hapi]
  refine ⟨rfl, rfl, ?_⟩
  by_cases hwin : 7 ≤ countMatches answers qs
  · simp [submitResultOf, hwin]
  · simp [submitResultOf, hwin]

/-- C6 witness: submitted ["A", "b"] against held correct labels "a" and
"c": the uppercase "A" matches, "b" does not, so the score is 1 and the
result "LOST". -/
theorem c6_witness :
    submitScoreOf (api_submit_game ["A", "b"] "" sessTwo true) = some 1 ∧
    submitResultOf (api_submit_game ["A", "b"] "" sessTwo true) = some "LOST" := by
  have h := c6_score_and_outcome ["A", "b"] "" sessTwo true [qEasyA, qHardC] rfl rfl rfl rfl
  exact ⟨h.1, h.2.1⟩

/-! ### C9 -/

theorem api_submit_game_cases (answers : List String) (topic : String)
    (sess : Session) (dbOk : Bool) :
    (∃ m, api_submit_game answers topic sess dbOk =
        Except.ok (SubmitResp.failure m 400, sess)) ∨
    (∃ sc tot res tp det, api_submit_game answers topic sess dbOk =
        Except.ok (SubmitResp.success sc tot res tp det dbOk,
          { current_questions := none, current_topic := none })) ∨
    (∃ e, api_submit_game answers topic sess dbOk = Except.error e) := by
  by_cases h1 : (sess.current_questions.getD []).isEmpty = true
  · left
    refine ⟨"No active quiz found", ?_⟩
    simp only [api_submit_game]
    rw [if_pos h1]
  · by_cases h2 : answers.length ≠ (sess.current_questions.getD []).length
    · left
      refine ⟨"Expected " ++ toString (sess.current_questions.getD []).length ++
        " answers but received " ++ toString answers.length, ?_⟩
      simp only [api_submit_game]
      rw [if_neg h1, if_pos h2]
    · cases hsl : scoreLoop answers 0 (sess.current_questions.getD []) with
      | error e =>
          right; right
          refine ⟨e, ?_⟩
          simp only [api_submit_game]
          rw [if_neg h1, if_neg h2, hsl]
      | ok p =>
          obtain ⟨sc, ds⟩ := p
          right; left
          refine ⟨sc, 10, if 7 ≤ sc then "WON" else "LOST",
            if topic = "" then sess.current_topic.getD "Unknown Topic" else topic, ds, ?_⟩
          simp only [api_submit_game]
          rw [if_neg h1, if_neg h2, hsl]

/-- C9: submission is atomic on the session quiz state: every failure
response leaves the session exactly as it was, every success response leaves
the session with `current_questions` and `current_topic` both removed, and a
subsequent submit against that cleared session finds no active quiz. -/
theorem c9_session_atomicity (answers answers2 : List String) (topic topic2 : String)
    (sess clearedS : Session) (dbOk dbOk2 : Bool)
    (hclr : clearedS = { current_questions := none, current_topic := none }) :
    (submitIsFailure (api_submit_game answers topic sess dbOk) = true →
      submitSessOf (api_submit_game answers topic sess dbOk) = some sess) ∧
    (submitIsSuccess (api_submit_game answers topic sess dbOk) = true →
      submitSessOf (api_submit_game answers topic sess dbOk) = some clearedS) ∧
    api_submit_game answers2 topic2 clearedS dbOk2 =
      Except.ok (SubmitResp.failure "No active quiz found" 400, clearedS) := by
  subst hclr
  refine ⟨?_, ?_, rfl⟩
  · intro hfail
    rcases api_submit_game_cases answers topic sess dbOk with ⟨m, hm⟩ | ⟨sc, tot, res, tp, det, hs⟩ | ⟨e, he⟩
    · rw [hm]; rfl
    · rw [hs] at hfail; cases hfail
    · rw [he] at hfail; cases hfail
  · intro hsucc
    rcases api_submit_game_cases answers topic sess dbOk with ⟨m, hm⟩ | ⟨sc, tot, res, tp, det, hs⟩ | ⟨e, he⟩
    · rw [hm] at hsucc; cases hsucc
    · rw [hs]; rfl
    · rw [he] at hsucc; cases hsucc

/-- C9 witness: a concrete successful submit clears the session, and a
second submit against the cleared session fails with "No active quiz
found". -/
theorem c9_witness :
    submitSessOf (api_submit_game ["a", "b"] "T" sessTwo true) =
      some { current_questions := none, current_topic := none } ∧
    api_submit_game ["x"] "U" { current_questions := none, current_topic := none } false =
      Except.ok (SubmitResp.failure "No active quiz found" 400,
        { current_questions := none, current_topic := none }) :=
  ⟨(c9_session_atomicity ["a", "b"] ["x"] "T" "U" sessTwo
      { current_questions := none, current_topic := none } true false rfl).2.1 rfl,
   (c9_session_atomicity ["a", "b"] ["x"] "T" "U" sessTwo
      { current_questions := none, current_topic := none } true false rfl).2.2⟩

/-! ### C10 -/

/-- C10: whenever the scoring preconditions hold, the handler returns the
success response no matter what the external history store reported: the
persistence outcome is visible only as the `saved` flag, the session quiz
state is cleared regardless, and the `total` field is the constant 10 even
when the held question count differs from 10. -/
theorem c10_success_despite_save_failure (answers : List String) (topic : String)
    (sess : Session) (dbOk : Bool) (qs : List Question)
    (hq : sess.current_questions = some qs)
    (hne : qs.isEmpty = false)
    (hlen : answers.length = qs.length)
    (hstr : qs.all (fun q => q.correct.isStr) = true) :
    submitIsSuccess (api_submit_game answers topic sess dbOk) = true ∧
    submitSavedOf (api_submit_game answers topic sess dbOk) = some dbOk ∧
    submitTotalOf (api_submit_game answers topic sess dbOk) = some 10 ∧
    submitSessOf (api_submit_game answers topic sess dbOk) =
      some { current_questions := none, current_topic := none } := by
  obtain ⟨ds, hapi⟩ := api_submit_game_success_eq answers topic sess dbOk qs hq hne hlen
    (fun q hqm => List.all_eq_true.mp hstr q hqm)
  rw [hapi]
  exact ⟨rfl, rfl, rfl, rfl⟩

/-- C10 witness: a concrete submit with 2 held questions (not 10) and a
failed history save: the response is still a success with saved = false and
total = 10, and the session is cleared. -/
theorem c10_witness :
    submitIsSuccess (api_submit_game ["a", "b"] "T" sessTwo false) = true ∧
    submitSavedOf (api_submit_game ["a", "b"] "T" sessTwo false) = some false ∧
    submitTotalOf (api_submit_game ["a", "b"] "T" sessTwo false) = some 10 ∧
    submitSessOf (api_submit_game ["a", "b"] "T" sessTwo false) =
      some { current_questions := none, current_topic := none } :=
  c10_success_despite_save_failure ["a", "b"] "T" sessTwo false [qEasyA, qHardC]
    rfl rfl rfl rfl

/-! ### C7 -/

/-- The integer key attached to a dict entry (total; only used when the key
parses as an integer). -/
def intKeyOf (kv : String × Json) : Int := (pyToInt kv.1).getD 0

/-- All entries of a tier dict with their parsed integer keys attached. -/
def keyedOf (entries : List (String × Json)) : List (Int × (String × Json)) :=
  entries.map (fun kv => (intKeyOf kv, kv))

theorem parseTierKeys_all_parse (entries : List (String × Json))
    (h : entries.all (fun kv => (pyToInt kv.1).isSome) = true) :
    parseTierKeys entries = Except.ok (keyedOf entries) := by
  induction entries with
  | nil => rfl
  | cons kv rest ih =>
      simp only [List.all_cons, Bool.and_eq_true] at h
      obtain ⟨n, hn⟩ := Option.isSome_iff_exists.mp h.1
      simp only [parseTierKeys, hn, ih h.2, keyedOf, List.map_cons, intKeyOf,
        Option.getD_some]

/-- C7: when every key of a tier's parsed dict parses as an integer, the
per-tier processing iterates the entries sorted by the numeric value of the
keys (a permutation of the dict, ascending under `tierKeyLE`, so key "10"
comes after key "2"), and assigns the appended questions consecutive
`question_number`s starting right after the questions already collected. -/
theorem c7_numeric_key_order (entries : List (String × Json)) (startLen : Nat)
    (diff : String)
    (hkeys : entries.all (fun kv => (pyToInt kv.1).isSome) = true) :
    parseTierKeys entries = Except.ok (keyedOf entries) ∧
    (sortTierEntries (keyedOf entries)).Perm (keyedOf entries) ∧
    List.Sorted tierKeyLE (sortTierEntries (keyedOf entries)) ∧
    processTier (Json.obj entries) startLen diff =
      buildQuestions diff ((sortTierEntries (keyedOf entries)).map Prod.snd) startLen ∧
    (∀ qs, processTier (Json.obj entries) startLen diff = Except.ok qs →
      qs.map Question.question_number = List.range' (startLen + 1) qs.length) := by
  have hp := parseTierKeys_all_parse entries hkeys
  have heq : processTier (Json.obj entries) startLen diff =
      buildQuestions diff ((sortTierEntries (keyedOf entries)).map Prod.snd) startLen := by
    simp only [processTier, pyDictEntries, hp]
  refine ⟨hp, List.perm_insertionSort tierKeyLE _,
    List.sorted_insertionSort tierKeyLE _, heq, ?_⟩
  intro qs hq
  rw [heq] at hq
  obtain ⟨hlen, _, hnum, _⟩ := buildQuestions_spec diff _ startLen qs hq
  rw [hnum, hlen]

/-- A tier dict whose keys are "10" and "2", in that insertion order. -/
def c7Entries : List (String × Json) :=
  [("10", mkEntry "k10" "a"), ("2", mkEntry "k2" "b")]

/-- The questions produced from `c7Entries`. -/
def c7Qs : List Question := exOk (processTier (Json.obj c7Entries) 0 "EASY")

/-- C7 witness: on the concrete keys "10" and "2" the sorted entry order is
ascending numerically, the appended questions are numbered from 1, and the
entry with key "2" indeed comes before the one with key "10". -/
theorem c7_witness :
    List.Sorted tierKeyLE (sortTierEntries (keyedOf c7Entries)) ∧
    c7Qs.map Question.question_number = List.range' 1 c7Qs.length ∧
    c7Qs.map Question.question = [Json.str "k2", Json.str "k10"] :=
  ⟨(c7_numeric_key_order c7Entries 0 "EASY" rfl).2.2.1,
   (c7_numeric_key_order c7Entries 0 "EASY" rfl).2.2.2.2 c7Qs rfl,
   rfl⟩

/-! ### C8 -/

/-- C8: when the chain invocation raises any exception (the oracle's
`Except.error`, covering transport, service and API errors alike),
`generate_questions_by_difficulty` catches it and returns the failure value
`None` (`none`) instead of propagating the exception, consuming exactly one
pending service response — the rest of the stream is returned untouched, so
no retry is attempted. -/
theorem c8_exception_caught_no_retry (loads : String → Option Json)
    (topic : String) (number : Nat) (difficulty : String) (e : String)
    (rest : List (Except String String)) :
    genQBD_with_oracle loads topic number difficulty (Except.error e :: rest) =
      (none, rest) := rfl

end MCQGame
